import Mathlib

/-!
Verification of the mojopi package-index web application (`src/mojopi/views.py`)
against its natural-language specification.

The source is a set of Flask route handlers over peewee ORM models.  We embed
the handlers shallowly: ORM tables become Lean lists of records, the filesystem
becomes an association list from path strings to content identifiers, and each
handler becomes a pure function from the relevant state and request data to an
explicit outcome value.  Definitions mirror `views.py` line by line; functions
of `models.py` / `utils.py` (which are referenced by `views.py` but whose code
is not part of the embedded source tree) are modelled from the specification
and marked as such in their doc comments.
-/

set_option autoImplicit false

namespace Mojopi

/-! ## Data model (spec section 3; peewee models referenced by views.py) -/

/-- A `User` row: unique id, email, username, optional password hash,
optional stored avatar filename. -/
structure User where
  id : Nat
  email : String
  username : String
  password : Option String
  picture : Option String
  deriving DecidableEq, Repr

/-- A `Profile` row, one-to-one with `User` (keyed here by the user id):
visibility flag and free-text fields. -/
structure Profile where
  user : Nat
  is_public : Bool
  education : String
  experience : String
  bio : String
  deriving DecidableEq, Repr

/-- A `Project` row: a named package at a specific version plus metadata
fields read by `project_info`.  Timestamps are abstracted as naturals. -/
structure Project where
  name : String
  version : String
  description : String
  description_content_type : String
  home_page : String
  keywords : String
  license : String
  maintainer : String
  maintainer_email : String
  summary : String
  create_at : Nat
  last_modified : Nat
  deriving DecidableEq, Repr

/-- A `Ring` row: a built distribution artifact.  `upload_at` is the upload
timestamp, `sha256` the stored checksum, contents are abstracted as naturals. -/
structure Ring where
  name : String
  version : String
  platform : String
  author : String
  author_email : String
  require_dist : String
  requires_mojo : String
  file_name : String
  sha256 : Nat
  upload_at : Nat
  deriving DecidableEq, Repr

/-! ## Host-language semantics of ORM query expressions

peewee query expressions (`Project.name == pname`, …) are ordinary Python
objects.  `views.py` combines them with the host-language `and` keyword
instead of the ORM's `&` operator. -/

/-- Truthiness of an ORM query-expression object.  peewee expression objects
define neither a boolean conversion nor a length, so Python treats every such
object as truthy. -/
def exprTruthy {α : Type} (_ : α) : Bool := true

/-- Python's `and` applied to two ORM query-expression objects: `a and b`
returns `b` when `bool(a)` is true and `a` otherwise.  Since expression
objects are always truthy (see `exprTruthy`), the left operand is discarded
and only the right operand reaches the query engine. -/
def pyAnd {α : Type} (a b : α) : α := if exprTruthy a then b else a

/-- Query expressions over the `Project` table that occur in `views.py`. -/
inductive ProjectExpr where
  | nameEq (v : String)
  | versionEq (v : String)
  | ilikeName (patt : String)
  deriving DecidableEq, Repr

/-- Query expressions over the `Ring` table that occur in `views.py`.
`uploadAtEq` compares against a possibly-NULL scalar (`fn.MAX` over an empty
set is NULL, and `column = NULL` matches no row). -/
inductive RingExpr where
  | nameEq (v : String)
  | versionEq (v : String)
  | platformEq (v : String)
  | uploadAtEq (v : Option Nat)
  deriving DecidableEq, Repr

/-- Python `str.lower`, as a character list. -/
def pyLower (s : String) : List Char := s.data.map Char.toLower

/-- Boolean prefix test on character lists. -/
def isPrefixB : List Char → List Char → Bool
  | [], _ => true
  | _ :: _, [] => false
  | a :: p, c :: t => a == c && isPrefixB p t

/-- Python's `needle in hay` substring containment on character lists. -/
def isSub (needle hay : List Char) : Bool :=
  match hay with
  | [] => needle.isEmpty
  | _ :: t => isPrefixB needle hay || isSub needle t

/-- SQL `LIKE` pattern matching: `%` matches any sequence of characters,
`_` matches any single character, every other pattern character matches
itself. -/
def likeMatch : List Char → List Char → Bool
  | [], s => s.isEmpty
  | a :: p, s =>
    if a = '%' then
      match s with
      | [] => likeMatch p []
      | c :: t => likeMatch p (c :: t) || likeMatch (a :: p) t
    else
      match s with
      | [] => false
      | c :: t => if a = '_' then likeMatch p t else a == c && likeMatch p t
  termination_by p s => p.length + s.length

/-- peewee's `**` operator: case-insensitive `LIKE` (`ILIKE`), modelled by
lower-casing both the pattern and the subject. -/
def ilike (patt subject : String) : Bool :=
  likeMatch (pyLower patt) (pyLower subject)

/-- Evaluate a `Project` query expression against a row. -/
def ProjectExpr.matches : ProjectExpr → Project → Bool
  | .nameEq v, p => p.name == v
  | .versionEq v, p => p.version == v
  | .ilikeName patt, p => ilike patt p.name

/-- Evaluate a `Ring` query expression against a row. -/
def RingExpr.matches : RingExpr → Ring → Bool
  | .nameEq v, r => r.name == v
  | .versionEq v, r => r.version == v
  | .platformEq v, r => r.platform == v
  | .uploadAtEq v, r => some r.upload_at == v

/-- `Project.get_or_none(expr)`: first row satisfying the expression. -/
def Project.get_or_none (projects : List Project) (e : ProjectExpr) : Option Project :=
  projects.find? e.matches

/-- `Ring.get_or_none(expr)`: first row satisfying the expression. -/
def Ring.get_or_none (rings : List Ring) (e : RingExpr) : Option Ring :=
  rings.find? e.matches

/-- `Project.select().where(expr)`: all rows satisfying the expression. -/
def Project.select_where (projects : List Project) (e : ProjectExpr) : List Project :=
  projects.filter e.matches

/-- `Model.get_by_id(pk)` (returning `none` for `DoesNotExist`). -/
def get_by_id (users : List User) (uid : Nat) : Option User :=
  users.find? (fun u => u.id == uid)

/-- `Profile.get(Profile.user == user)` (returning `none` for `DoesNotExist`). -/
def Profile.get_for (profiles : List Profile) (uid : Nat) : Option Profile :=
  profiles.find? (fun pf => pf.user == uid)

/-- Python truthiness of an optional string (ORM text field): `None` and the
empty string are falsy. -/
def pyFalsy : Option String → Bool
  | none => true
  | some s => s == ""

/-! ## The project lookup shared by `project_info`, `project`,
`project_history` and `project_files` -/

/-- The lookup `Project.get_or_none(Project.name == pname and Project.version
== version)` as written (with the host-language `and`) in `project_info` and
in the `project` / `project_history` / `project_files` handlers. -/
def project_lookup (projects : List Project) (pname version : String) : Option Project :=
  Project.get_or_none projects
    (pyAnd (ProjectExpr.nameEq pname) (ProjectExpr.versionEq version))

/-- The `GET` branch of `ring_file`: the ring lookup performed after version
resolution, with the host-language `and` chain exactly as in the source. -/
def ring_get_lookup (rings : List Ring) (name version platform : String) : Option Ring :=
  if platform != "" then
    Ring.get_or_none rings
      (pyAnd (pyAnd (RingExpr.nameEq name) (RingExpr.versionEq version))
        (RingExpr.platformEq platform))
  else
    Ring.get_or_none rings
      (pyAnd (RingExpr.nameEq name) (RingExpr.versionEq version))

/-! ## Filesystem and utility functions

`utils.py` is not part of the embedded source tree ( `views.py` only imports
it), so its functions are modelled from the specification. -/

/-- Exceptions that the embedded handlers can raise unhandled. -/
inductive PyExn where
  | fileNotFound
  | unboundLocal
  deriving DecidableEq, Repr

/-- The server filesystem fragment used by a handler: an association list
from path strings to abstract file contents. -/
structure FS where
  files : List (String × Nat)
  deriving DecidableEq, Repr

/-- Read the content stored at a path, if any. -/
def FS.lookup (fs : FS) (path : String) : Option Nat :=
  (fs.files.find? (fun kv => kv.1 == path)).map (fun kv => kv.2)

/-- `file.save(path)` / overwriting file write. -/
def FS.save (fs : FS) (path : String) (content : Nat) : FS :=
  ⟨(path, content) :: fs.files.filter (fun kv => kv.1 != path)⟩

/-- The rings directory `RINGS_PATH`, as a path prefix. -/
def RINGS_PATH : String := "rings/"

/-- The profile-picture directory `PIC_PATH`, as a path prefix. -/
def PIC_PATH : String := "pics/"

/-- Modelled from the spec: `utils.hash_password` (password hashing).  The
hash of a password is an injective function of the password; the concrete
digest is irrelevant to the claims, so we use a tagged copy. -/
def hash_password (password : String) : String := "pbkdf2$" ++ password

/-- Modelled from the spec: `utils.verify_password` (password verification):
a password verifies against a stored hash exactly when hashing it reproduces
the hash. -/
def verify_password (password hashed_password : String) : Bool :=
  hash_password password == hashed_password

/-- Modelled from the spec: the digest of one file content. -/
def sha256_of (content : Nat) : Nat := content + 1

/-- Modelled from the spec: `utils.calculate_sha256` (file checksum
computation) reads the file at `path` and returns the digest of its current
content; opening a path with no file raises `FileNotFoundError`. -/
def calculate_sha256 (fs : FS) (path : String) : Except PyExn Nat :=
  match fs.lookup path with
  | none => .error .fileNotFound
  | some content => .ok (sha256_of content)

/-- Modelled from external library behavior described by the spec:
`werkzeug.utils.secure_filename` sanitizes a client-supplied filename,
keeping ASCII alphanumerics, dot, dash and underscore. -/
def secure_filename (s : String) : String :=
  ⟨s.data.filter (fun c => c.isAlphanum || c == '.' || c == '-' || c == '_')⟩

/-- `pathlib.Path(name).suffix`: the extension from the last dot, empty when
the last dot is absent, leading, or trailing. -/
def pathSuffix (s : String) : String :=
  let name := s.data
  match ((name.enum.filter (fun ic => ic.2 == '.')).map (fun ic => ic.1)).getLast? with
  | some i => if 0 < i ∧ i < name.length - 1 then ⟨name.drop i⟩ else ""
  | none => ""

/-- An uploaded multipart file: client-supplied filename plus content. -/
structure UpFile where
  filename : String
  content : Nat
  deriving DecidableEq, Repr

/-! ## Modelled `models.py` operations -/

/-- Modelled from the spec: `models.add_ring` creates a Ring record, raising
`InvalidInputError` when a record with the same natural key already exists;
per the spec the duplicate lookup is written with the same host-language
`and` pattern as section 4.3 and therefore collapses to its last condition. -/
def add_ring (rings : List Ring) (r : Ring) : Except Unit (List Ring) :=
  match Ring.get_or_none rings
      (pyAnd (pyAnd (RingExpr.nameEq r.name) (RingExpr.versionEq r.version))
        (RingExpr.platformEq r.platform)) with
  | some _ => .error ()
  | none => .ok (rings ++ [r])

/-- Modelled from the spec: `User.save()` updates the row with the user's id;
the globally-unique username constraint raises `IntegrityError` when another
row already holds the same username. -/
def user_save (users : List User) (u : User) : Except Unit (List User) :=
  if users.any (fun v => v.id != u.id && v.username == u.username) then
    .error ()
  else
    .ok (users.map (fun v => if v.id == u.id then u else v))

/-- Modelled from the spec: `Profile.save()` updates the (one-to-one) row
with the profile's user id; profiles carry no unique text constraint. -/
def profile_save (profiles : List Profile) (pf : Profile) : List Profile :=
  profiles.map (fun q => if q.user == pf.user then pf else q)

/-! ## Authentication handlers -/

/-- Outcome of the `login` POST handler: which flash message was set and
whether (and as whom) a session was started. -/
inductive LoginOutcome where
  | needReset
  | loggedIn
  | wrongPassword
  | emailIncorrect
  deriving DecidableEq, Repr

/-- Result of `login`: outcome, session (`login_user`), and the user table
after the request. -/
structure LoginResult where
  outcome : LoginOutcome
  session : Option Nat
  users : List User
  deriving DecidableEq, Repr

/-- The `login` POST handler: look the user up by email; a falsy stored
password hash starts a session and redirects to password reset; otherwise the
supplied password is verified against the stored hash. -/
def login (users : List User) (email password : String) : LoginResult :=
  match users.find? (fun u => u.email == email) with
  | some user =>
    if pyFalsy user.password then
      ⟨.needReset, some user.id, users⟩
    else if verify_password password (user.password.getD "") then
      ⟨.loggedIn, some user.id, users⟩
    else
      ⟨.wrongPassword, none, users⟩
  | none => ⟨.emailIncorrect, none, users⟩

/-- Outcome of the `reset_password` POST handler. -/
inductive RPResult where
  | abort (code : Nat) (msg : String) (users : List User)
  | ok (users : List User)
  deriving DecidableEq, Repr

/-- The `reset_password` POST handler: 401 unless authenticated, 403 when the
two submitted values differ, otherwise the stored hash is replaced by the
hash of the new password. -/
def reset_password (users : List User) (current_user : Option Nat)
    (new_password confirm_password : String) : RPResult :=
  match current_user with
  | none => .abort 401 "" users
  | some uid =>
    match get_by_id users uid with
    | none => .abort 401 "" users
    | some cu =>
      if new_password != confirm_password then
        .abort 403 "New password is not equal to confirm password." users
      else
        match user_save users { cu with password := some (hash_password new_password) } with
        | .error _ => .abort 500 "IntegrityError" users
        | .ok users2 => .ok users2

/-! ## Profile handlers -/

/-- Outcome of the `profile` view: a rendered profile page, a 404 with an
optional description string, or an unhandled server error. -/
inductive ProfileOutcome where
  | page (pf : Profile)
  | notFound (description : Option String)
  | serverError
  deriving DecidableEq, Repr

/-- The `/profile/<user_id>` handler: 404 when the user does not exist;
`Profile.get` raises unhandled when the profile row is missing; the page is
rendered when the profile is public or the requester is the owner, and
otherwise the handler aborts 404 with the description
`"User\x27s profile is private."`. -/
def profile (users : List User) (profiles : List Profile)
    (current_user : Option Nat) (user_id : Nat) : ProfileOutcome :=
  match get_by_id users user_id with
  | none => .notFound none
  | some user =>
    match Profile.get_for profiles user.id with
    | none => .serverError
    | some pf =>
      if pf.is_public || current_user == some user.id then
        .page pf
      else
        .notFound (some "User\x27s profile is private.")

/-- `url_for("static", filename=...)`. -/
def static_url (filename : String) : String := "/static/" ++ filename

/-- `url_for("fbp.get_profile_pic", user_id=user_id)`. -/
def get_profile_pic_url (user_id : Nat) : String :=
  "/files/profile_pic/" ++ toString user_id

/-- The `profile_pic_url` helper: the `except DoesNotExist` branch assigns a
fallback url, but the function then evaluates `user.picture` with the local
`user` never bound, raising `UnboundLocalError`; in the bound case the url
depends on whether a picture is recorded. -/
def profile_pic_url (users : List User) (user_id : Nat) : Except PyExn String :=
  match get_by_id users user_id with
  | none => .error .unboundLocal
  | some user =>
    if pyFalsy user.picture then
      .ok (static_url "Sample_User_Icon.png")
    else
      .ok (get_profile_pic_url user_id)

/-- Combined user table and picture directory acted on by the avatar
handlers. -/
structure PicState where
  users : List User
  fs : FS
  deriving DecidableEq, Repr

/-- Outcome of the `profile_pic_upload` POST handler. -/
inductive PicUploadResult where
  | saved (st : PicState)
  | abort (code : Nat) (msg : String)
  deriving DecidableEq, Repr

/-- The `profile_pic_upload` handler: 401 unless authenticated, 400 on a
missing file or empty filename; otherwise the sanitized filename's suffix is
appended to the username, the file is stored in the picture directory under
that name, and the name is recorded on the user row. -/
def profile_pic_upload (st : PicState) (current_user : Option Nat)
    (file? : Option UpFile) : PicUploadResult :=
  match current_user with
  | none => .abort 401 ""
  | some uid =>
    match file? with
    | none => .abort 400 "No file provided."
    | some file =>
      if file.filename == "" then .abort 400 "Empty filename."
      else
        match get_by_id st.users uid with
        | none => .abort 401 ""
        | some user =>
          let filename := secure_filename file.filename
          let filename_suffix := pathSuffix filename
          let picName := user.username ++ filename_suffix
          let fs2 := st.fs.save (PIC_PATH ++ picName) file.content
          match user_save st.users { user with picture := some picName } with
          | .error _ => .abort 500 "IntegrityError"
          | .ok users2 => .saved ⟨users2, fs2⟩

/-- Outcome of the `get_profile_pic` GET handler. -/
inductive PicGetResult where
  | bytes (content : Nat)
  | abort (code : Nat) (msg : String)
  deriving DecidableEq, Repr

/-- The serving tail of `get_profile_pic`: when the resolved user records a
picture name and the file exists in the picture directory, its bytes are
sent; every other case falls through to the 404. -/
def get_profile_pic_serve (st : PicState) (uid : Nat) : PicGetResult :=
  match get_by_id st.users uid with
  | none => .abort 404 "User not found."
  | some user =>
    if pyFalsy user.picture then .abort 404 "Profile picture not found."
    else
      match st.fs.lookup (PIC_PATH ++ user.picture.getD "") with
      | some content => .bytes content
      | none => .abort 404 "Profile picture not found."

/-- The `get_profile_pic` handler: resolves the target user (the current user
when no id is given), and serves the stored picture file when the user record
names one and it exists on disk; otherwise 404. -/
def get_profile_pic (st : PicState) (current_user : Option Nat)
    (user_id : Option Nat) : PicGetResult :=
  match user_id with
  | none =>
    match current_user with
    | none => .abort 401 ""
    | some uid => get_profile_pic_serve st uid
  | some uid =>
    match get_by_id st.users uid with
    | none => .abort 404 "User not found."
    | some _ => get_profile_pic_serve st uid

/-- Outcome of the `edit_profile` POST handler. -/
inductive EPResult where
  | ok (users : List User) (profiles : List Profile) (flashes : List String)
  | abort (code : Nat)
  | serverError
  deriving DecidableEq, Repr

/-- The `edit_profile` POST handler: sets the current user's username and
saves (an `IntegrityError` is caught and flashed, leaving the table
unchanged); then unconditionally updates the profile's free-text fields and
flashes success. -/
def edit_profile (users : List User) (profiles : List Profile)
    (current_user : Option Nat)
    (username education experience bio : String) : EPResult :=
  match current_user with
  | none => .abort 401
  | some uid =>
    match get_by_id users uid with
    | none => .abort 401
    | some cu =>
      let saveResult := user_save users { cu with username := username }
      let users2 := match saveResult with
        | .error _ => users
        | .ok us => us
      let flashes := match saveResult with
        | .error _ => ["New username conflicts with existing account."]
        | .ok _ => []
      match Profile.get_for profiles uid with
      | none => .serverError
      | some pf =>
        let pf2 := { pf with education := education, experience := experience, bio := bio }
        .ok users2 (profile_save profiles pf2) (flashes ++ ["Edit Successful!"])

/-! ## Package metadata queries -/

/-- A value in the `project_info` response map: string field or timestamp. -/
inductive InfoVal where
  | s (v : String)
  | n (v : Nat)
  deriving DecidableEq, Repr

/-- The response map built by `project_info`, as an insertion-ordered
association list (all inserted keys are distinct). -/
abbrev Info := List (String × InfoVal)

/-- Whether the response map contains a key. -/
def hasKey (info : Info) (k : String) : Bool :=
  info.any (fun kv => kv.1 == k)

/-- Key membership on the optional result of `project_info` (no key when the
result is `None`). -/
def infoHasKey (oi : Option Info) (k : String) : Bool :=
  match oi with
  | none => false
  | some info => hasKey info k

/-- `Ring.select(fn.MAX(Ring.upload_at)).where(Ring.name == pname).scalar()`:
the latest upload timestamp among rings of that name, NULL (`none`) when
there are none. -/
def latest_ring_dt (rings : List Ring) (pname : String) : Option Nat :=
  ((rings.filter (fun r => r.name == pname)).map (fun r => r.upload_at)).max?

/-- The ring lookup of `project_info`:
`Ring.get_or_none(Ring.name == pname and Ring.upload_at == latest_ring_dt)`,
written with the host-language `and` exactly as in the source. -/
def ring_info_lookup (rings : List Ring) (pname : String) : Option Ring :=
  Ring.get_or_none rings
    (pyAnd (RingExpr.nameEq pname) (RingExpr.uploadAtEq (latest_ring_dt rings pname)))

/-- `project_info(pname, version)`: looks up the project and the ring with
the latest upload timestamp, returns `None` when the project lookup fails,
and otherwise builds the response map in source order, inserting each
optional metadata key only when the corresponding field is truthy
(non-empty). -/
def project_info (projects : List Project) (rings : List Ring)
    (pname : String) (version : String) : Option Info :=
  let pj := project_lookup projects pname version
  let ring := ring_info_lookup rings pname
  match pj with
  | none => none
  | some pj =>
    some ([("name", InfoVal.s pname), ("version", InfoVal.s pj.version)]
      ++ (if pj.description == "" then [] else [("description", InfoVal.s pj.description)])
      ++ (if pj.description_content_type == "" then []
          else [("description_content_type", InfoVal.s pj.description_content_type)])
      ++ (if pj.home_page == "" then [] else [("home_page", InfoVal.s pj.home_page)])
      ++ (if pj.keywords == "" then [] else [("keywords", InfoVal.s pj.keywords)])
      ++ (if pj.license == "" then [] else [("license", InfoVal.s pj.license)])
      ++ (match ring with
          | some ring =>
            (if ring.author == "" then [] else [("author", InfoVal.s ring.author)])
            ++ (if ring.author_email == "" then []
                else [("author_email", InfoVal.s ring.author_email)])
            ++ (if ring.requires_mojo == "" then []
                else [("requires_mojo", InfoVal.s ring.requires_mojo)])
          | none => [])
      ++ (if pj.maintainer == "" then [] else [("maintainer", InfoVal.s pj.maintainer)])
      ++ (if pj.maintainer_email == "" then []
          else [("maintainer_email", InfoVal.s pj.maintainer_email)])
      ++ (if pj.summary == "" then [] else [("summary", InfoVal.s pj.summary)])
      ++ [("create_at", InfoVal.n pj.create_at), ("last_modified", InfoVal.n pj.last_modified)])

/-- `latest_project_version(project_name)`: maximum version string for the
name (NULL when none), lexicographic per the underlying `MAX`. -/
def latest_project_version (projects : List Project) (project_name : String) : Option String :=
  ((projects.filter (fun p => p.name == project_name)).map (fun p => p.version)).max?

/-- The `search` handler: the where-clause uses the case-insensitive `LIKE`
`Project.name ** f"%\x7bquery_string\x7d%"`, and the subsequent Python loop
keeps the rows whose lower-cased name contains the lower-cased query. -/
def search (projects : List Project) (query_string : String) : List Project :=
  let pjs := Project.select_where projects
    (ProjectExpr.ilikeName ("%" ++ query_string ++ "%"))
  pjs.filter (fun pj => isSub (pyLower query_string) (pyLower pj.name))

/-! ## Ring upload -/

/-- The JSON body of a ring upload (absent keys default to `""` except the
required `name`). -/
structure UploadData where
  name : Option String
  version : String
  platform : String
  author : String
  author_email : String
  require_dist : String
  require_mojo : String
  deriving DecidableEq, Repr

/-- Externally visible steps of the upload handler, in execution order. -/
inductive UEvent where
  | checksumRead (path : String)
  | recordAdded (r : Ring)
  | fileWritten (path : String)
  deriving DecidableEq, Repr

/-- Outcome of the `ring_file` POST handler: final ring table, final rings
directory, and the ordered list of externally visible steps. -/
inductive UploadOutcome where
  | ok (rings : List Ring) (fs : FS) (events : List UEvent)
  | abort (code : Nat) (msg : String) (rings : List Ring) (fs : FS) (events : List UEvent)
  | pyError (e : PyExn) (rings : List Ring) (fs : FS) (events : List UEvent)
  deriving DecidableEq, Repr

/-- The `ring_file` POST handler (`upload_ring`): after the body checks, the
checksum is computed from the destination path in the rings directory, then
the `Ring` record is created via `add_ring` (400 on duplicate), and the
uploaded bytes are written to the destination as the final step. -/
def upload_ring (rings : List Ring) (fs : FS) (is_json : Bool)
    (file : UpFile) (data : UploadData) (now : Nat) : UploadOutcome :=
  if !is_json then .abort 415 "Not JSON" rings fs []
  else if file.filename == "" then .abort 400 "No file upload." rings fs []
  else
    let file_name := file.filename
    let dest := RINGS_PATH ++ file_name
    match calculate_sha256 fs dest with
    | .error e => .pyError e rings fs []
    | .ok sha256 =>
      match data.name with
      | none => .abort 422 "name not provided." rings fs [.checksumRead dest]
      | some name =>
        let r : Ring :=
          { name := name, version := data.version, platform := data.platform
            author := data.author, author_email := data.author_email
            require_dist := data.require_dist, requires_mojo := data.require_mojo
            file_name := file_name, sha256 := sha256, upload_at := now }
        match add_ring rings r with
        | .error _ =>
          .abort 400 "Upload failed. Duplicate ring." rings fs [.checksumRead dest]
        | .ok rings2 =>
          .ok rings2 (fs.save (RINGS_PATH ++ file.filename) file.content)
            [.checksumRead dest, .recordAdded r, .fileWritten dest]

/-! ## Helper lemmas -/

/-- Python `and` on ORM expressions keeps only its right operand. -/
theorem pyAnd_eq_right {α : Type} (a b : α) : pyAnd a b = b := rfl

/-- Replacing the row with a given id and then looking that id up finds the
replacement, provided the id was present. -/
theorem find_id_map_replace (users : List User) (uid : Nat) (u2 : User)
    (hid : u2.id = uid)
    (h : (users.find? (fun u => u.id == uid)).isSome = true) :
    (users.map (fun v => if v.id == u2.id then u2 else v)).find?
      (fun u => u.id == uid) = some u2 := by
  induction users with
  | nil => simp at h
  | cons v t ih =>
    by_cases hv : v.id = uid
    · simp [hv, hid]
    · have h1 : (v.id == u2.id) = false := by simp [hid, hv]
      have h2 : (v.id == uid) = false := by simp [hv]
      rw [List.find?_cons_of_neg _ (by simp [hv])] at h
      simp only [List.map_cons, h1, Bool.false_eq_true, if_false]
      rw [List.find?_cons_of_neg _ (by simp [hv])]
      exact ih h

/-- A successful `user_save` replaces exactly the saved user's row. -/
theorem user_save_ok (users : List User) (u : User) (users2 : List User)
    (h : user_save users u = .ok users2) :
    users2 = users.map (fun v => if v.id == u.id then u else v) := by
  unfold user_save at h
  by_cases hc : users.any (fun v => v.id != u.id && v.username == u.username) = true
  · rw [if_pos hc] at h
    cases h
  · rw [if_neg hc] at h
    injection h with h2
    exact h2.symm

/-! ## Claim C1 -/

/-- A project row used as the concrete counterexample input for C1. -/
def cexProject : Project :=
  { name := "other", version := "1.0", description := ""
    description_content_type := "", home_page := "", keywords := ""
    license := "", maintainer := "", maintainer_email := "", summary := ""
    create_at := 0, last_modified := 0 }

/-- C1, counterexample: with the table holding only a project named `other`
at version `1.0`, the Project lookup of `project_info("target", "1.0")`
succeeds even though no project named `target` exists — so the lookup does
not filter on the first field (the name), refuting the claim that the second
condition is the one dropped. -/
theorem C1_counterexample :
    ¬(((project_lookup [cexProject] "target" "1.0").isSome = true)
      ↔ ([cexProject].any (fun p => p.name == "target") = true)) := by
  decide

/-- C1, amended: every record lookup written with the host-language `and`
filters on only its last field — the name (and for the three-condition ring
lookup also the version) condition has no effect.  In particular the Project
lookup of `project_info(name, version)` succeeds exactly when some project
with that version exists, and the `ring_file` GET lookups reduce to a
platform-only (resp. version-only) filter. -/
theorem C1_and_lookups_filter_on_last_field
    (projects : List Project) (rings : List Ring)
    (pname version name vsn platform : String) :
    project_lookup projects pname version
      = Project.get_or_none projects (ProjectExpr.versionEq version)
    ∧ ((project_lookup projects pname version).isSome = true
        ↔ ∃ p, p ∈ projects ∧ p.version = version)
    ∧ (platform ≠ "" →
        ring_get_lookup rings name vsn platform
          = Ring.get_or_none rings (RingExpr.platformEq platform))
    ∧ ring_get_lookup rings name vsn ""
        = Ring.get_or_none rings (RingExpr.versionEq vsn) := by
  refine ⟨rfl, ?_, ?_, ?_⟩
  · unfold project_lookup Project.get_or_none
    rw [pyAnd_eq_right, List.find?_isSome]
    simp [ProjectExpr.matches]
  · intro hp
    simp [ring_get_lookup, hp, pyAnd_eq_right]
  · simp [ring_get_lookup, pyAnd_eq_right]

/-- C1 witness: the amended theorem applied at concrete inputs, discharging
its hypothesis. -/
theorem C1_witness :
    ring_get_lookup [] "n" "v" "plat"
      = Ring.get_or_none [] (RingExpr.platformEq "plat") :=
  (C1_and_lookups_filter_on_last_field [] [] "a" "b" "n" "v" "plat").2.2.1
    (by decide)

/-! ## Claim C3 -/

/-- C3: in `login`, a registered user found by email with an absent (falsy)
stored hash is logged in and told to reset the password; with a hash present,
a verifying password starts a session, and a non-verifying password reports
the wrong-password condition, starts no session and leaves the user table
unchanged. -/
theorem C3_login_behavior (users : List User) (email password : String)
    (user : User)
    (h : users.find? (fun u => u.email == email) = some user) :
    (pyFalsy user.password = true →
      login users email password = ⟨.needReset, some user.id, users⟩)
    ∧ (pyFalsy user.password = false →
        verify_password password (user.password.getD "") = true →
        login users email password = ⟨.loggedIn, some user.id, users⟩)
    ∧ (pyFalsy user.password = false →
        verify_password password (user.password.getD "") = false →
        login users email password = ⟨.wrongPassword, none, users⟩) := by
  refine ⟨?_, ?_, ?_⟩
  · intro h1
    simp [login, h, h1]
  · intro h1 h2
    simp [login, h, h1, h2]
  · intro h1 h2
    simp [login, h, h1, h2]

/-- A registered user used as the concrete witness input for C3. -/
def aliceUser : User :=
  { id := 1, email := "a@x.com", username := "alice"
    password := some (hash_password "pw1"), picture := none }

/-- C3 witness: the theorem applied to a concrete user and a wrong password,
discharging every hypothesis. -/
theorem C3_witness :
    login [aliceUser] "a@x.com" "wrong"
      = ⟨.wrongPassword, none, [aliceUser]⟩ :=
  (C3_login_behavior [aliceUser] "a@x.com" "wrong" aliceUser (by decide)).2.2
    (by decide) (by decide)

/-! ## Claim C7 -/

/-- C7: an authenticated user's `reset_password` aborts 403 with the user
table unchanged when the two submitted values differ, and otherwise replaces
the stored hash by the hash of the new password. -/
theorem C7_reset_password (users : List User) (uid : Nat) (cu : User)
    (new_password confirm_password : String)
    (hu : get_by_id users uid = some cu) :
    (new_password ≠ confirm_password →
      reset_password users (some uid) new_password confirm_password
        = .abort 403 "New password is not equal to confirm password." users)
    ∧ (new_password = confirm_password →
        users.any (fun v => v.id != cu.id && v.username == cu.username) = false →
        ∃ users2,
          reset_password users (some uid) new_password confirm_password
            = .ok users2
          ∧ get_by_id users2 uid
            = some { cu with password := some (hash_password new_password) }) := by
  constructor
  · intro hne
    simp [reset_password, hu, hne]
  · intro heq hcol
    have hid : cu.id = uid := by
      have := List.find?_some hu
      simpa using this
    refine ⟨users.map (fun v =>
      if v.id == ({ cu with password := some (hash_password new_password) } : User).id
      then { cu with password := some (hash_password new_password) } else v), ?_, ?_⟩
    · simp [reset_password, hu, heq, user_save, hcol]
    · unfold get_by_id
      apply find_id_map_replace
      · simpa using hid
      · unfold get_by_id at hu
        rw [hu]
        rfl

/-- C7 witness: the theorem applied at concrete inputs, discharging both
branches' hypotheses. -/
theorem C7_witness :
    reset_password [aliceUser] (some 1) "new" "other"
      = .abort 403 "New password is not equal to confirm password." [aliceUser] :=
  (C7_reset_password [aliceUser] 1 aliceUser "new" "other" (by decide)).1
    (by decide)

/-! ## Claim C10 -/

/-- C10: for a `user_id` with no user row, `profile_pic_url` raises
`UnboundLocalError` (the `except` branch assigns the fallback url but the
following line dereferences the never-bound `user` local), so the call never
returns the default-asset url. -/
theorem C10_profile_pic_url_unbound (users : List User) (user_id : Nat)
    (h : get_by_id users user_id = none) :
    profile_pic_url users user_id = .error .unboundLocal
    ∧ ∀ url, profile_pic_url users user_id ≠ .ok url := by
  constructor
  · simp [profile_pic_url, h]
  · intro url
    simp [profile_pic_url, h]

/-- C10 witness: the theorem applied at a concrete empty table, showing the
default-asset url is not returned. -/
theorem C10_witness :
    profile_pic_url [] 5 ≠ .ok (static_url "Sample_User_Icon.png") :=
  (C10_profile_pic_url_unbound [] 5 (by decide)).2 _

/-! ## Claim C5 -/

/-- Replacing the profile row with a given user id and then looking that id
up finds the replacement, provided the id was present. -/
theorem find_user_map_replace (profiles : List Profile) (uid : Nat)
    (pf2 : Profile) (hid : pf2.user = uid)
    (h : (profiles.find? (fun q => q.user == uid)).isSome = true) :
    (profiles.map (fun q => if q.user == pf2.user then pf2 else q)).find?
      (fun q => q.user == uid) = some pf2 := by
  induction profiles with
  | nil => simp at h
  | cons q t ih =>
    by_cases hq : q.user = uid
    · simp [hq, hid]
    · have h1 : (q.user == pf2.user) = false := by simp [hid, hq]
      rw [List.find?_cons_of_neg _ (by simp [hq])] at h
      simp only [List.map_cons, h1, Bool.false_eq_true, if_false]
      rw [List.find?_cons_of_neg _ (by simp [hq])]
      exact ih h

/-- The user and profile tables used as the concrete counterexample input
for C5: user 1 does not exist, user 2 exists with a private profile. -/
def cexUsers : List User :=
  [{ id := 2, email := "b@x.com", username := "bob", password := none, picture := none }]

/-- The private profile of user 2 in the C5 counterexample. -/
def cexProfiles : List Profile :=
  [{ user := 2, is_public := false, education := "", experience := "", bio := "" }]

/-- C5, counterexample: to an anonymous requester, the missing-user outcome
is a bare 404 while the private-profile outcome is a 404 carrying the
description `"User\x27s profile is private."`; the two Not Found outcomes are
therefore distinguishable, refuting the indistinguishability part of the
claim. -/
theorem C5_counterexample :
    profile cexUsers cexProfiles none 1 = .notFound none
    ∧ profile cexUsers cexProfiles none 2
        = .notFound (some "User\x27s profile is private.")
    ∧ profile cexUsers cexProfiles none 1 ≠ profile cexUsers cexProfiles none 2 := by
  decide

/-- C5, amended: for a requester who is not the owner, `profile` reports Not
Found (status 404) both when no user with the id exists and when the user
exists but the profile is private — but the two outcomes are distinguishable:
the missing-user 404 carries no description while the private-profile 404
carries the description `"User\x27s profile is private."`.  When the profile
is public or the requester is the owner, the profile page is returned. -/
theorem C5_profile_visibility (users : List User) (profiles : List Profile)
    (current_user : Option Nat) (user_id : Nat) :
    (get_by_id users user_id = none →
      profile users profiles current_user user_id = .notFound none)
    ∧ (∀ user pf, get_by_id users user_id = some user →
        Profile.get_for profiles user.id = some pf →
        (pf.is_public = false → current_user ≠ some user.id →
          profile users profiles current_user user_id
            = .notFound (some "User\x27s profile is private."))
        ∧ ((pf.is_public = true ∨ current_user = some user.id) →
            profile users profiles current_user user_id = .page pf))
    ∧ ProfileOutcome.notFound none
        ≠ ProfileOutcome.notFound (some "User\x27s profile is private.") := by
  refine ⟨?_, ?_, by simp⟩
  · intro h
    simp [profile, h]
  · intro user pf hu hpf
    constructor
    · intro h1 h2
      simp [profile, hu, hpf, h1, h2]
    · intro h1
      rcases h1 with h1 | h1 <;> simp [profile, hu, hpf, h1]

/-- C5 witness: the amended theorem applied at the concrete tables,
discharging every hypothesis. -/
theorem C5_witness :
    profile cexUsers cexProfiles none 2
      = .notFound (some "User\x27s profile is private.") :=
  ((C5_profile_visibility cexUsers cexProfiles none 2).2.1
    { id := 2, email := "b@x.com", username := "bob", password := none, picture := none }
    { user := 2, is_public := false, education := "", experience := "", bio := "" }
    (by decide) (by decide)).1 (by decide) (by decide)

/-! ## Claim C6 -/

/-- C6: an authenticated user's `edit_profile` flashes a conflict and leaves
the user table unchanged when the new username collides with another account,
renames the user otherwise, and in both cases rewrites the profile's
free-text fields to the submitted values. -/
theorem C6_edit_profile (users : List User) (profiles : List Profile)
    (uid : Nat) (cu : User) (pf : Profile)
    (username education experience bio : String)
    (hu : get_by_id users uid = some cu)
    (hpf : Profile.get_for profiles uid = some pf) :
    (users.any (fun v => v.id != cu.id && v.username == username) = true →
      edit_profile users profiles (some uid) username education experience bio
        = .ok users
            (profile_save profiles
              { pf with education := education, experience := experience, bio := bio })
            ["New username conflicts with existing account.", "Edit Successful!"])
    ∧ (users.any (fun v => v.id != cu.id && v.username == username) = false →
        edit_profile users profiles (some uid) username education experience bio
          = .ok (users.map (fun v =>
                if v.id == cu.id then { cu with username := username } else v))
              (profile_save profiles
                { pf with education := education, experience := experience, bio := bio })
              ["Edit Successful!"])
    ∧ Profile.get_for
        (profile_save profiles
          { pf with education := education, experience := experience, bio := bio })
        uid
        = some { pf with education := education, experience := experience, bio := bio } := by
  refine ⟨?_, ?_, ?_⟩
  · intro hcol
    simp [edit_profile, hu, hpf, user_save, hcol]
  · intro hcol
    simp [edit_profile, hu, hpf, user_save, hcol]
  · have hid : pf.user = uid := by
      have := List.find?_some hpf
      simpa using this
    unfold Profile.get_for profile_save
    apply find_user_map_replace
    · simpa using hid
    · unfold Profile.get_for at hpf
      rw [hpf]
      rfl

/-- The second registered account that the C6 witness collides with. -/
def alice2User : User :=
  { id := 2, email := "c@x.com", username := "alice2", password := none, picture := none }

/-- Alice's profile row used in the C6 witness. -/
def aliceProfile : Profile :=
  { user := 1, is_public := true, education := "", experience := "", bio := "" }

/-- C6 witness: renaming alice to the existing username `alice2` flashes the
conflict, keeps the user table unchanged, and still rewrites the free-text
fields. -/
theorem C6_witness :
    edit_profile [aliceUser, alice2User] [aliceProfile] (some 1)
        "alice2" "edu" "exp" "bio"
      = .ok [aliceUser, alice2User]
          (profile_save [aliceProfile]
            { aliceProfile with education := "edu", experience := "exp", bio := "bio" })
          ["New username conflicts with existing account.", "Edit Successful!"] :=
  (C6_edit_profile [aliceUser, alice2User] [aliceProfile] 1 aliceUser aliceProfile
    "alice2" "edu" "exp" "bio" (by decide) (by decide)).1 (by decide)

/-! ## Claim C2 -/

/-- C2: in the `ring_file` POST handler, the stored checksum is the digest of
whatever content sat at the destination path **before** the upload (here the
stale content `c0`), the record is created before the bytes are persisted
(on a duplicate the handler aborts with the filesystem untouched and no write
event), and on success the file write is the last step of the handler. -/
theorem C2_upload_ring_ordering (rings : List Ring) (fs : FS)
    (file : UpFile) (data : UploadData) (now : Nat) (name : String) (c0 : Nat)
    (hfn : (file.filename == "") = false)
    (hpre : fs.lookup (RINGS_PATH ++ file.filename) = some c0)
    (hname : data.name = some name) :
    (Ring.get_or_none rings
        (pyAnd (pyAnd (RingExpr.nameEq name) (RingExpr.versionEq data.version))
          (RingExpr.platformEq data.platform)) = none →
      upload_ring rings fs true file data now
        = .ok
            (rings ++ [{ name := name, version := data.version
                         platform := data.platform, author := data.author
                         author_email := data.author_email
                         require_dist := data.require_dist
                         requires_mojo := data.require_mojo
                         file_name := file.filename, sha256 := sha256_of c0
                         upload_at := now }])
            (fs.save (RINGS_PATH ++ file.filename) file.content)
            [.checksumRead (RINGS_PATH ++ file.filename),
             .recordAdded { name := name, version := data.version
                            platform := data.platform, author := data.author
                            author_email := data.author_email
                            require_dist := data.require_dist
                            requires_mojo := data.require_mojo
                            file_name := file.filename, sha256 := sha256_of c0
                            upload_at := now },
             .fileWritten (RINGS_PATH ++ file.filename)])
    ∧ (∀ r0, Ring.get_or_none rings
        (pyAnd (pyAnd (RingExpr.nameEq name) (RingExpr.versionEq data.version))
          (RingExpr.platformEq data.platform)) = some r0 →
      upload_ring rings fs true file data now
        = .abort 400 "Upload failed. Duplicate ring." rings fs
            [.checksumRead (RINGS_PATH ++ file.filename)]) := by
  constructor
  · intro hdup
    simp [upload_ring, hfn, calculate_sha256, hpre, hname, add_ring, hdup]
  · intro r0 hdup
    simp [upload_ring, hfn, calculate_sha256, hpre, hname, add_ring, hdup]

/-- The stale pre-existing rings-directory content used by the C2 witness. -/
def cexRingFS : FS := ⟨[("rings/pkg.ring", 7)]⟩

/-- The upload body used by the C2 witness. -/
def cexUploadData : UploadData :=
  { name := some "pkg", version := "1.0", platform := "", author := ""
    author_email := "", require_dist := "", require_mojo := "" }

/-- C2 witness: the theorem applied at concrete inputs; the stored checksum
is the digest of the stale content `7`, not of the uploaded content `42`,
and the write event comes last. -/
theorem C2_witness :
    upload_ring [] cexRingFS true ⟨"pkg.ring", 42⟩ cexUploadData 11
      = .ok
          [{ name := "pkg", version := "1.0", platform := "", author := ""
             author_email := "", require_dist := "", requires_mojo := ""
             file_name := "pkg.ring", sha256 := sha256_of 7, upload_at := 11 }]
          (cexRingFS.save ("rings/" ++ "pkg.ring") 42)
          [.checksumRead ("rings/" ++ "pkg.ring"),
           .recordAdded { name := "pkg", version := "1.0", platform := ""
                          author := "", author_email := "", require_dist := ""
                          requires_mojo := "", file_name := "pkg.ring"
                          sha256 := sha256_of 7, upload_at := 11 },
           .fileWritten ("rings/" ++ "pkg.ring")] :=
  (C2_upload_ring_ordering [] cexRingFS ⟨"pkg.ring", 42⟩ cexUploadData 11 "pkg" 7
    (by decide) (by decide) (by decide)).1 (by decide)

/-! ## Claim C8 -/

/-- A lone `%` pattern matches every string. -/
theorem likeMatch_percent_all (s : List Char) : likeMatch ['%'] s = true := by
  induction s with
  | nil => simp [likeMatch]
  | cons c t ih =>
    unfold likeMatch
    simp [ih]

/-- A leading `%` absorbs any prefix of the subject. -/
theorem likeMatch_percent_absorb (pre : List Char) (p s : List Char)
    (h : likeMatch p s = true) : likeMatch ('%' :: p) (pre ++ s) = true := by
  induction pre with
  | nil =>
    cases s with
    | nil =>
      unfold likeMatch
      simpa using h
    | cons c t =>
      unfold likeMatch
      simp [h]
  | cons a pre ih =>
    unfold likeMatch
    simp [ih]

/-- A pattern ending in `%` matches any extension of its own literal text:
each pattern character (wildcards included) matches its literal occurrence. -/
theorem likeMatch_self_percent (q post : List Char) :
    likeMatch (q ++ ['%']) (q ++ post) = true := by
  induction q with
  | nil => simpa using likeMatch_percent_all post
  | cons c q ih =>
    show likeMatch (c :: (q ++ ['%'])) (c :: (q ++ post)) = true
    by_cases hc : c = '%'
    · subst hc
      unfold likeMatch
      simp
      right
      exact likeMatch_percent_absorb [] _ _ ih
    · by_cases hu : c = '_'
      · subst hu
        unfold likeMatch
        simp [ih]
      · unfold likeMatch
        simp [hc, hu, ih]

/-- A successful boolean prefix test decomposes the subject. -/
theorem isPrefixB_append (needle : List Char) :
    ∀ hay, isPrefixB needle hay = true → ∃ rest, hay = needle ++ rest := by
  induction needle with
  | nil => exact fun hay _ => ⟨hay, rfl⟩
  | cons a p ih =>
    intro hay h
    cases hay with
    | nil => simp [isPrefixB] at h
    | cons c t =>
      simp only [isPrefixB, Bool.and_eq_true, beq_iff_eq] at h
      obtain ⟨h1, h2⟩ := h
      obtain ⟨rest, hr⟩ := ih t h2
      exact ⟨rest, by simp [h1, hr]⟩

/-- Literal substring containment implies matching the `LIKE` pattern
`%needle%`. -/
theorem isSub_likeMatch (q : List Char) :
    ∀ hay, isSub q hay = true → likeMatch ('%' :: (q ++ ['%'])) hay = true := by
  intro hay
  induction hay with
  | nil =>
    intro h
    have hq : q = [] := by simpa [isSub] using h
    subst hq
    simp [likeMatch]
  | cons c t ih =>
    intro h
    rw [isSub, Bool.or_eq_true] at h
    rcases h with hp | hs
    · obtain ⟨rest, hr⟩ := isPrefixB_append q (c :: t) hp
      rw [hr]
      have := likeMatch_percent_absorb [] (q ++ ['%']) (q ++ rest)
        (likeMatch_self_percent q rest)
      simpa using this
    · unfold likeMatch
      simp [ih hs]

/-- Lower-casing the `f"%\x7bq\x7d%"` pattern keeps the two literal `%`
wildcards in place. -/
theorem pyLower_pattern (q : String) :
    pyLower ("%" ++ q ++ "%") = '%' :: (pyLower q ++ ['%']) := by
  unfold pyLower
  rw [String.data_append, String.data_append]
  simp [show ("%" : String).data = ['%'] from rfl]

/-- Membership in the `search` result is exactly case-insensitive substring
containment of the query in the project name. -/
theorem search_mem_iff (projects : List Project) (q : String) (p : Project) :
    p ∈ search projects q
      ↔ p ∈ projects ∧ isSub (pyLower q) (pyLower p.name) = true := by
  unfold search Project.select_where
  rw [List.mem_filter, List.mem_filter]
  constructor
  · rintro ⟨⟨hmem, _⟩, hsub⟩
    exact ⟨hmem, hsub⟩
  · rintro ⟨hmem, hsub⟩
    refine ⟨⟨hmem, ?_⟩, hsub⟩
    show ilike ("%" ++ q ++ "%") p.name = true
    unfold ilike
    rw [pyLower_pattern]
    exact isSub_likeMatch (pyLower q) (pyLower p.name) hsub

/-- C8: `search(q)` returns exactly the projects whose name contains `q`
case-insensitively (the ILIKE where-clause is implied by the literal
containment check, so it filters nothing extra), and membership in the result
is invariant under permuting the project table. -/
theorem C8_search_exact (projects projects2 : List Project) (q : String)
    (p : Project) :
    (p ∈ search projects q
      ↔ p ∈ projects ∧ isSub (pyLower q) (pyLower p.name) = true)
    ∧ (projects.Perm projects2 →
        (p ∈ search projects q ↔ p ∈ search projects2 q)) := by
  refine ⟨search_mem_iff projects q p, ?_⟩
  intro hperm
  rw [search_mem_iff, search_mem_iff]
  exact and_congr_left (fun _ => hperm.mem_iff)

/-- The projects used by the C8 witness. -/
def cexSearchProjects : List Project :=
  [{ cexProject with name := "xxABCyy" }, { cexProject with name := "zzz" }]

/-- C8 witness: the theorem applied at a concrete table and query,
discharging the permutation hypothesis. -/
theorem C8_witness :
    { cexProject with name := "xxABCyy" } ∈ search cexSearchProjects "abc"
      ↔ { cexProject with name := "xxABCyy" } ∈ search cexSearchProjects.reverse "abc" :=
  (C8_search_exact cexSearchProjects cexSearchProjects.reverse "abc"
    { cexProject with name := "xxABCyy" }).2 (List.reverse_perm _).symm

/-! ## Claim C4 -/

/-- `hasKey` distributes over appending map segments. -/
theorem hasKey_append (a b : Info) (k : String) :
    hasKey (a ++ b) k = (hasKey a k || hasKey b k) :=
  List.any_append

/-- `hasKey` on a conditionally inserted single binding. -/
theorem hasKey_ite_field (b : Bool) (k1 : String) (v : InfoVal) (k : String) :
    hasKey (if b then [] else [(k1, v)]) k = (!b && (k1 == k)) := by
  cases b <;> simp [hasKey]

/-- The decidability coercion of string equality agrees with its boolean
equality test. -/
theorem decide_eq_beq (a b : String) : decide (a = b) = (a == b) := by
  by_cases h : a = b <;> simp [h]

/-- `List.any` over a conditionally inserted single binding, stated on the
decidable-proposition form of the emptiness test. -/
theorem any_dite_field (c : Prop) [Decidable c] (k1 : String) (v : InfoVal)
    (k : String) :
    ((if c then ([] : Info) else [(k1, v)]).any fun kv => kv.1 == k)
      = (!(decide c) && (k1 == k)) := by
  by_cases h : c <;> simp [h]

/-- C4: when `project_info` finds a project row and the latest-upload ring
row of the same name, the response map contains each optional metadata key
exactly when the corresponding field of the underlying record is non-empty
(so no key is ever bound to an absent or empty value). -/
theorem C4_project_info_optional_keys (projects : List Project)
    (rings : List Ring) (pname version : String) (pj : Project) (r : Ring)
    (hp : project_lookup projects pname version = some pj)
    (hr : ring_info_lookup rings pname = some r)
    (hrn : r.name = pname) :
    infoHasKey (project_info projects rings pname version) "description"
      = (pj.description != "")
    ∧ infoHasKey (project_info projects rings pname version) "description_content_type"
      = (pj.description_content_type != "")
    ∧ infoHasKey (project_info projects rings pname version) "home_page"
      = (pj.home_page != "")
    ∧ infoHasKey (project_info projects rings pname version) "keywords"
      = (pj.keywords != "")
    ∧ infoHasKey (project_info projects rings pname version) "license"
      = (pj.license != "")
    ∧ infoHasKey (project_info projects rings pname version) "author"
      = (r.author != "")
    ∧ infoHasKey (project_info projects rings pname version) "author_email"
      = (r.author_email != "")
    ∧ infoHasKey (project_info projects rings pname version) "requires_mojo"
      = (r.requires_mojo != "")
    ∧ infoHasKey (project_info projects rings pname version) "maintainer"
      = (pj.maintainer != "")
    ∧ infoHasKey (project_info projects rings pname version) "maintainer_email"
      = (pj.maintainer_email != "")
    ∧ infoHasKey (project_info projects rings pname version) "summary"
      = (pj.summary != "") := by
  unfold project_info
  rw [hp, hr]
  simp only [infoHasKey, hasKey_append, hasKey_ite_field, hasKey, List.any_cons,
    List.any_nil]
  refine ⟨?_, ?_, ?_, ?_, ?_, ?_, ?_, ?_, ?_, ?_, ?_⟩ <;>
    simp [any_dite_field, bne, decide_eq_beq]

/-- The project row used by the C4 witness: some optional fields set, some
empty. -/
def wPj : Project :=
  { name := "pkg", version := "1.0", description := "a package"
    description_content_type := "", home_page := "", keywords := "kw"
    license := "", maintainer := "m", maintainer_email := "", summary := ""
    create_at := 1, last_modified := 2 }

/-- The latest ring row used by the C4 witness. -/
def wRing : Ring :=
  { name := "pkg", version := "1.0", platform := "", author := ""
    author_email := "ae@x.com", require_dist := "", requires_mojo := ">=0.1"
    file_name := "pkg.ring", sha256 := 0, upload_at := 5 }

/-- C4 witness: the theorem applied at a concrete table, discharging all
three lookup hypotheses. -/
theorem C4_witness :
    infoHasKey (project_info [wPj] [wRing] "pkg" "1.0") "description"
      = (wPj.description != "")
    ∧ infoHasKey (project_info [wPj] [wRing] "pkg" "1.0") "description_content_type"
      = (wPj.description_content_type != "")
    ∧ infoHasKey (project_info [wPj] [wRing] "pkg" "1.0") "home_page"
      = (wPj.home_page != "")
    ∧ infoHasKey (project_info [wPj] [wRing] "pkg" "1.0") "keywords"
      = (wPj.keywords != "")
    ∧ infoHasKey (project_info [wPj] [wRing] "pkg" "1.0") "license"
      = (wPj.license != "")
    ∧ infoHasKey (project_info [wPj] [wRing] "pkg" "1.0") "author"
      = (wRing.author != "")
    ∧ infoHasKey (project_info [wPj] [wRing] "pkg" "1.0") "author_email"
      = (wRing.author_email != "")
    ∧ infoHasKey (project_info [wPj] [wRing] "pkg" "1.0") "requires_mojo"
      = (wRing.requires_mojo != "")
    ∧ infoHasKey (project_info [wPj] [wRing] "pkg" "1.0") "maintainer"
      = (wPj.maintainer != "")
    ∧ infoHasKey (project_info [wPj] [wRing] "pkg" "1.0") "maintainer_email"
      = (wPj.maintainer_email != "")
    ∧ infoHasKey (project_info [wPj] [wRing] "pkg" "1.0") "summary"
      = (wPj.summary != "") :=
  C4_project_info_optional_keys [wPj] [wRing] "pkg" "1.0" wPj wRing
    (by decide) (by decide) (by decide)

/-! ## Claim C9 -/

/-- Reading back a freshly saved path yields the saved content. -/
theorem FS.lookup_save_same (fs : FS) (p : String) (c : Nat) :
    (fs.save p c).lookup p = some c := by
  simp [FS.save, FS.lookup]

/-- A string with a non-empty left component is non-empty. -/
theorem append_ne_empty_left (a b : String) (h : a ≠ "") : a ++ b ≠ "" := by
  intro hc
  apply h
  have hd := congrArg String.data hc
  rw [String.data_append] at hd
  have ha : a.data = [] := (List.append_eq_nil.mp hd).1
  cases a with
  | mk data =>
    simp only [String.data] at ha
    rw [ha]

/-- One successful avatar upload, unfolded: with an authenticated existing
user, a non-empty filename and no username collision, the handler saves the
file under `<username><suffix>` in the picture directory and records that
name on the user row. -/
theorem profile_pic_upload_ok (st : PicState) (uid : Nat) (user : User)
    (f : UpFile)
    (hu : get_by_id st.users uid = some user)
    (hne : (f.filename == "") = false)
    (hcolP : ¬∃ x ∈ st.users, ¬x.id = user.id ∧ x.username = user.username) :
    profile_pic_upload st (some uid) (some f)
      = .saved ⟨st.users.map (fun v =>
            if v.id = user.id
            then { user with
                   picture := some (user.username ++ pathSuffix (secure_filename f.filename)) }
            else v),
          st.fs.save
            (PIC_PATH ++ (user.username ++ pathSuffix (secure_filename f.filename)))
            f.content⟩ := by
  simp [profile_pic_upload, hne, hu, user_save, hcolP]

/-- Replacing the row at a given id and looking that id up finds the
replacement (proposition-valued branch form). -/
theorem find_map_replace_prop (users : List User) (uid w : Nat) (u2 : User)
    (hw : w = uid) (hid : u2.id = uid)
    (h : (users.find? (fun u => u.id == uid)).isSome = true) :
    (users.map (fun v => if v.id = w then u2 else v)).find?
      (fun u => u.id == uid) = some u2 := by
  subst hw
  induction users with
  | nil => simp at h
  | cons v t ih =>
    by_cases hv : v.id = w
    · simp [hv, hid]
    · rw [List.find?_cons_of_neg _ (by simp [hv])] at h
      simp only [List.map_cons, if_neg hv]
      rw [List.find?_cons_of_neg _ (by simp [hv])]
      exact ih h

/-- C9: uploading a non-empty avatar file twice for the same user stores the
same filename `<username><original-extension>` both times, records it on the
user row after either upload, and fetching the avatar after either upload
serves the bytes of the most recent upload. -/
theorem C9_avatar_upload_twice (st : PicState) (uid : Nat) (user : User)
    (f1 f2 : UpFile)
    (hu : get_by_id st.users uid = some user)
    (husn : user.username ≠ "")
    (hne : f1.filename ≠ "")
    (hf : f2.filename = f1.filename)
    (hcolP : ¬∃ x ∈ st.users, ¬x.id = user.id ∧ x.username = user.username) :
    ∃ st1 st2 : PicState,
      profile_pic_upload st (some uid) (some f1) = .saved st1
      ∧ profile_pic_upload st1 (some uid) (some f2) = .saved st2
      ∧ (∃ u1, get_by_id st1.users uid = some u1
          ∧ u1.picture
            = some (user.username ++ pathSuffix (secure_filename f1.filename)))
      ∧ (∃ u2, get_by_id st2.users uid = some u2
          ∧ u2.picture
            = some (user.username ++ pathSuffix (secure_filename f1.filename)))
      ∧ get_profile_pic st1 none (some uid) = .bytes f1.content
      ∧ get_profile_pic st2 none (some uid) = .bytes f2.content := by
  obtain ⟨fn2, c2⟩ := f2
  have hf2 : fn2 = f1.filename := hf
  subst hf2
  have hid : user.id = uid := by simpa using List.find?_some hu
  have hne1 : (f1.filename == "") = false := by simp [hne]
  have hpn : ((user.username ++ pathSuffix (secure_filename f1.filename)) == "")
      = false := by
    simpa using append_ne_empty_left user.username
      (pathSuffix (secure_filename f1.filename)) husn
  have hsome : (st.users.find? (fun u => u.id == uid)).isSome = true := by
    unfold get_by_id at hu
    rw [hu]
    rfl
  have h1 := profile_pic_upload_ok st uid user f1 hu hne1 hcolP
  have hfind1 : get_by_id
      (st.users.map (fun v =>
        if v.id = user.id
        then { user with
               picture := some (user.username ++ pathSuffix (secure_filename f1.filename)) }
        else v)) uid
      = some { user with
               picture := some (user.username ++ pathSuffix (secure_filename f1.filename)) } := by
    unfold get_by_id
    exact find_map_replace_prop st.users uid user.id _ hid hid hsome
  have hcolP2 : ¬∃ x ∈ st.users.map (fun v =>
        if v.id = user.id
        then { user with
               picture := some (user.username ++ pathSuffix (secure_filename f1.filename)) }
        else v), ¬x.id = user.id ∧ x.username = user.username := by
    rintro ⟨x, hx, hxid, hxun⟩
    rw [List.mem_map] at hx
    obtain ⟨y, hy, hgy⟩ := hx
    by_cases hyid : y.id = user.id
    · rw [if_pos hyid] at hgy
      apply hxid
      rw [← hgy]
    · rw [if_neg hyid] at hgy
      exact hcolP ⟨y, hy, by rw [hgy]; exact hxid, by rw [hgy]; exact hxun⟩
  have hsome2 : ((st.users.map (fun v =>
        if v.id = user.id
        then { user with
               picture := some (user.username ++ pathSuffix (secure_filename f1.filename)) }
        else v)).find? (fun u => u.id == uid)).isSome = true := by
    unfold get_by_id at hfind1
    rw [hfind1]
    rfl
  have h2 : profile_pic_upload
      ⟨st.users.map (fun v =>
          if v.id = user.id
          then { user with
                 picture := some (user.username ++ pathSuffix (secure_filename f1.filename)) }
          else v),
        st.fs.save
          (PIC_PATH ++ (user.username ++ pathSuffix (secure_filename f1.filename)))
          f1.content⟩
      (some uid) (some ⟨f1.filename, c2⟩)
      = .saved ⟨(st.users.map (fun v =>
            if v.id = user.id
            then { user with
                   picture := some (user.username ++ pathSuffix (secure_filename f1.filename)) }
            else v)).map (fun v =>
            if v.id = user.id
            then { user with
                   picture := some (user.username ++ pathSuffix (secure_filename f1.filename)) }
            else v),
          (st.fs.save
            (PIC_PATH ++ (user.username ++ pathSuffix (secure_filename f1.filename)))
            f1.content).save
            (PIC_PATH ++ (user.username ++ pathSuffix (secure_filename f1.filename)))
            c2⟩ :=
    profile_pic_upload_ok _ uid
      { user with
        picture := some (user.username ++ pathSuffix (secure_filename f1.filename)) }
      ⟨f1.filename, c2⟩ hfind1 hne1 hcolP2
  have hfind2 : get_by_id
      ((st.users.map (fun v =>
        if v.id = user.id
        then { user with
               picture := some (user.username ++ pathSuffix (secure_filename f1.filename)) }
        else v)).map (fun v =>
        if v.id = user.id
        then { user with
               picture := some (user.username ++ pathSuffix (secure_filename f1.filename)) }
        else v)) uid
      = some { user with
               picture := some (user.username ++ pathSuffix (secure_filename f1.filename)) } := by
    unfold get_by_id
    exact find_map_replace_prop
      (st.users.map (fun v =>
        if v.id = user.id
        then { user with
               picture := some (user.username ++ pathSuffix (secure_filename f1.filename)) }
        else v)) uid user.id
      { user with
        picture := some (user.username ++ pathSuffix (secure_filename f1.filename)) }
      hid hid hsome2
  refine ⟨_, _, h1, h2, ⟨_, hfind1, rfl⟩, ⟨_, hfind2, rfl⟩, ?_, ?_⟩
  · simp [get_profile_pic, get_profile_pic_serve, hfind1, pyFalsy, hpn,
      FS.lookup_save_same]
  · have hfind2c := hfind2
    rw [List.map_map] at hfind2c
    simp [get_profile_pic, get_profile_pic_serve, hfind2c, pyFalsy, hpn,
      FS.lookup_save_same]

/-- C9 witness: the theorem applied to a concrete user uploading `me.png`
twice with different bytes, discharging every hypothesis. -/
theorem C9_witness :
    ∃ st1 st2 : PicState,
      profile_pic_upload ⟨[aliceUser], ⟨[]⟩⟩ (some 1) (some ⟨"me.png", 10⟩)
        = .saved st1
      ∧ profile_pic_upload st1 (some 1) (some ⟨"me.png", 20⟩) = .saved st2
      ∧ (∃ u1, get_by_id st1.users 1 = some u1
          ∧ u1.picture = some ("alice" ++ pathSuffix (secure_filename "me.png")))
      ∧ (∃ u2, get_by_id st2.users 1 = some u2
          ∧ u2.picture = some ("alice" ++ pathSuffix (secure_filename "me.png")))
      ∧ get_profile_pic st1 none (some 1) = .bytes 10
      ∧ get_profile_pic st2 none (some 1) = .bytes 20 :=
  C9_avatar_upload_twice ⟨[aliceUser], ⟨[]⟩⟩ 1 aliceUser
    ⟨"me.png", 10⟩ ⟨"me.png", 20⟩ (by decide) (by decide) (by decide) rfl
    (by decide)

end Mojopi
